import Mathlib

/-!
Verification of the capture-buffer-flush pipeline of the board-writing
auto-saving screen monitor.

The development shallowly embeds the relevant Python source:
* `src/modules/buffer.py` (`BufferManager`): the deduplicating bounded
  in-memory buffer (`add_to_buffer`, `set_buffer_size`, `_save_worker`)
  and the image hash (`calculate_image_hash`);
* `src/modules/screenshot.py` (`ScreenshotManager`): the foreground-window
  capture and its process-name filter;
* `src/main.py` (`MonitorThread.run`, `SmartBoardApp.check_save_times`):
  the scheduler loop and the scheduled-time flush trigger.

Python objects are modelled by plain Lean data:
* raw image data (`image_data`) is either a genuine byte string or a
  malformed value on which `hashlib.md5` raises (`PyData`);
* the MD5 digest function is an explicit parameter `md5 : List Nat → String`
  (the source delegates to `hashlib`; all buffer logic is parametric in it);
* the `queue.Queue` is a FIFO list (head = oldest), `set` is a `Finset`;
* filesystem and Qt outcomes (`os.makedirs`, `QPixmap.save`,
  `QPixmap.loadFromData`) are supplied by an oracle `World`;
* Python strings are lists of characters, so that the `in` substring
  test of `_is_target_process` is explicit.
-/

set_option autoImplicit false

namespace SmartBoard

/-- A Python value passed to `calculate_image_hash`: either a genuine
byte string (on which `hashlib.md5` always succeeds) or a malformed
value on which `hashlib.md5(image_data)` raises. -/
inductive PyData where
  | bytes (b : List Nat)
  | malformed
deriving DecidableEq, Repr

/-- Embeds `BufferManager.calculate_image_hash` (buffer.py lines 235-243):
`try: return hashlib.md5(image_data).hexdigest() except: return None`.
The digest function itself is the parameter `md5`. -/
def calculate_image_hash (md5 : List Nat → String) : PyData → Option String
  | .bytes b => some (md5 b)
  | .malformed => none

/-- One entry of `self.ram_buffer`: the dict built in `add_to_buffer`
(buffer.py lines 126-133), restricted to the fields the buffer logic
reads (`data` and `hash`; the path fields are modelled separately for
the flush worker). -/
structure Item where
  data : PyData
  hash : Option String
deriving DecidableEq, Repr

/-- The mutable state of `BufferManager` that `add_to_buffer`,
`set_buffer_size` and `_save_worker` touch: `max_size`, the FIFO
`ram_buffer` (head = oldest), the cached `buffer_count`, and the
dedup set `image_hashes`. -/
structure BufState where
  max_size : Nat
  items : List Item
  buffer_count : Nat
  image_hashes : Finset String
deriving DecidableEq

/-- Embeds `self.ram_buffer.full()`: CPython's `Queue.full` is
`0 < maxsize <= qsize`. -/
def queueFull (s : BufState) : Bool :=
  decide (0 < s.max_size ∧ s.max_size ≤ s.items.length)

/-- Embeds the effect of `BufferManager._save_worker` (buffer.py lines
168-225) on the buffer state, together with the batch of items drained
for persistence. An empty buffer returns early (no state change, nothing
drained); otherwise every item is removed by `get()` in FIFO order,
`buffer_count` is refreshed and `image_hashes.clear()` runs. -/
def save_worker_drain (s : BufState) : BufState × List Item :=
  if s.items.isEmpty then (s, [])
  else ({ s with items := [], buffer_count := 0, image_hashes := ∅ }, s.items)

/-- The observable outcome of one `add_to_buffer` call, distinguished by
the log lines and signals the source emits: the duplicate early return
(line 88), the plain insert, or the insert preceded by the
`buffer_full_signal` + `_save_worker()` forced flush (lines 95-98). -/
inductive AddOutcome where
  | duplicateSkipped
  | accepted
  | acceptedAfterForcedFlush
deriving DecidableEq, Repr

/-- Embeds the duplicate test `if image_hash and image_hash in
self.image_hashes` (buffer.py line 85): a falsy (`None`) hash is never
treated as a duplicate. -/
def isDuplicate (s : BufState) : Option String → Bool
  | some h => decide (h ∈ s.image_hashes)
  | none => false

/-- Embeds `if image_hash: self.image_hashes.add(image_hash)`
(buffer.py lines 91-92). -/
def insertHash (s : BufState) : Option String → BufState
  | some h => { s with image_hashes := insert h s.image_hashes }
  | none => s

/-- Embeds `self.ram_buffer.put({...})` followed by
`self.buffer_count = self.ram_buffer.qsize()` (buffer.py lines 126-135). -/
def putItem (s : BufState) (it : Item) : BufState :=
  { s with items := s.items ++ [it], buffer_count := s.items.length + 1 }

/-- Embeds `BufferManager.add_to_buffer` (buffer.py lines 78-141):
compute the hash; if it is truthy and already in `image_hashes`, return
(duplicate skipped, no state change); otherwise record the hash when
truthy, run a full `_save_worker` flush when the queue is full, then
`put` the new item and refresh `buffer_count`. Returns the new state,
the outcome, and the batch the forced flush (if any) drained. -/
def add_to_buffer (md5 : List Nat → String) (s : BufState) (d : PyData) :
    BufState × AddOutcome × List Item :=
  let image_hash := calculate_image_hash md5 d
  if isDuplicate s image_hash then (s, .duplicateSkipped, [])
  else
    let s1 := insertHash s image_hash
    if queueFull s1 then
      (putItem (save_worker_drain s1).1 ⟨d, image_hash⟩, .acceptedAfterForcedFlush,
        (save_worker_drain s1).2)
    else
      (putItem s1 ⟨d, image_hash⟩, .accepted, [])

/-- Embeds `BufferManager.set_buffer_size` (buffer.py lines 68-76): store
the new `max_size`, rebuild the queue keeping only `old_buffer[:size]`,
i.e. the oldest `size` items. (`buffer_count` is not touched.) -/
def set_buffer_size (s : BufState) (size : Nat) : BufState :=
  { s with max_size := size, items := s.items.take size }

/-- One operation of the buffer API the spec's invariants quantify over. -/
inductive Op where
  | add (d : PyData)
  | drainAll
  | resize (k : Nat)
deriving DecidableEq, Repr

/-- Applies one operation to the buffer state. -/
def applyOp (md5 : List Nat → String) (s : BufState) : Op → BufState
  | .add d => (add_to_buffer md5 s d).1
  | .drainAll => (save_worker_drain s).1
  | .resize k => set_buffer_size s k

/-- Applies a sequence of operations from left to right. -/
def applyOps (md5 : List Nat → String) (s : BufState) (ops : List Op) : BufState :=
  ops.foldl (applyOp md5) s

/-- The set of hashes of the items currently held in the buffer. -/
def bufferedHashes (s : BufState) : Finset String :=
  s.items.foldr (fun it acc => match it.hash with | some h => insert h acc | none => acc) ∅

/-- States the `seen_hashes` part of the spec's RingBuffer invariant:
`image_hashes` is exactly the set of hashes of the items currently held. -/
def seenMatchesBuffered (s : BufState) : Prop :=
  s.image_hashes = bufferedHashes s

instance (s : BufState) : Decidable (seenMatchesBuffered s) := by
  unfold seenMatchesBuffered; infer_instance

/-- The initial buffer state used in concrete scenarios: capacity `cap`,
no items, empty dedup set. -/
def initState (cap : Nat) : BufState :=
  { max_size := cap, items := [], buffer_count := 0, image_hashes := ∅ }

/-- A concrete stand-in digest function for closed scenarios: the
decimal rendering of the byte list (injective, so distinct byte strings
get distinct digests, matching MD5's collision-free behaviour on the
tiny inputs of the scenarios). -/
def md5Test (b : List Nat) : String :=
  toString b

/-- Applies a sequence of `add_to_buffer` calls, keeping only the state. -/
def applyAdds (md5 : List Nat → String) (s : BufState) : List PyData → BufState
  | [] => s
  | d :: ds => applyAdds md5 (add_to_buffer md5 s d).1 ds

/-- Holds when the `add_to_buffer` call on `d` from `s` takes the
buffer-full branch, i.e. performs a forced `_save_worker` flush. -/
def addForcedFlush (md5 : List Nat → String) (s : BufState) (d : PyData) : Prop :=
  (add_to_buffer md5 s d).2.1 = .acceptedAfterForcedFlush

instance (md5 : List Nat → String) (s : BufState) (d : PyData) :
    Decidable (addForcedFlush md5 s d) := by
  unfold addForcedFlush; infer_instance

/-- Holds when none of the `add_to_buffer` calls in the sequence takes
the buffer-full branch (so no flush happens anywhere in the sequence). -/
def noFlushSeq (md5 : List Nat → String) (s : BufState) : List PyData → Prop
  | [] => True
  | d :: ds => ¬ addForcedFlush md5 s d ∧ noFlushSeq md5 (add_to_buffer md5 s d).1 ds

instance (md5 : List Nat → String) (s : BufState) (ds : List PyData) :
    Decidable (noFlushSeq md5 s ds) := by
  induction ds generalizing s with
  | nil => exact .isTrue trivial
  | cons d ds ih => exact @instDecidableAnd _ _ _ (ih _)


/-! ### Basic lemmas about the buffer operations -/

@[simp]
theorem insertHash_items (s : BufState) (o : Option String) :
    (insertHash s o).items = s.items := by
  cases o <;> rfl

@[simp]
theorem insertHash_max (s : BufState) (o : Option String) :
    (insertHash s o).max_size = s.max_size := by
  cases o <;> rfl

@[simp]
theorem putItem_items (s : BufState) (it : Item) :
    (putItem s it).items = s.items ++ [it] := rfl

@[simp]
theorem putItem_max (s : BufState) (it : Item) :
    (putItem s it).max_size = s.max_size := rfl

@[simp]
theorem save_worker_drain_fst_items (s : BufState) :
    ((save_worker_drain s).1).items = [] := by
  unfold save_worker_drain
  split
  · next h => simpa [List.isEmpty_iff] using h
  · rfl

@[simp]
theorem save_worker_drain_fst_max (s : BufState) :
    ((save_worker_drain s).1).max_size = s.max_size := by
  unfold save_worker_drain
  split <;> rfl

theorem save_worker_drain_of_ne (s : BufState) (h : s.items ≠ []) :
    save_worker_drain s =
      ({ s with items := [], buffer_count := 0, image_hashes := ∅ }, s.items) := by
  unfold save_worker_drain
  rw [if_neg]
  simpa [List.isEmpty_iff] using h

theorem save_worker_drain_of_empty (s : BufState) (h : s.items = []) :
    save_worker_drain s = (s, []) := by
  unfold save_worker_drain
  rw [if_pos]
  simpa [List.isEmpty_iff] using h

theorem queueFull_iff (s : BufState) :
    queueFull s = true ↔ 0 < s.max_size ∧ s.max_size ≤ s.items.length := by
  simp [queueFull]

/-- An `add_to_buffer` call whose hash is fresh while the queue is not
full: the item is appended, its hash recorded, nothing drained. -/
theorem add_to_buffer_fresh_notFull (md5 : List Nat → String) (s : BufState) (b : List Nat)
    (hfresh : md5 b ∉ s.image_hashes)
    (hnotfull : ¬ (0 < s.max_size ∧ s.max_size ≤ s.items.length)) :
    add_to_buffer md5 s (.bytes b) =
      ({ s with image_hashes := insert (md5 b) s.image_hashes,
                items := s.items ++ [⟨.bytes b, some (md5 b)⟩],
                buffer_count := s.items.length + 1 }, .accepted, []) := by
  unfold add_to_buffer
  simp only [calculate_image_hash, isDuplicate, insertHash, putItem, decide_eq_true_eq]
  rw [if_neg (by simpa using hfresh)]
  rw [if_neg (by simpa [queueFull_iff] using hnotfull)]

/-- An `add_to_buffer` call whose hash is fresh while the queue is full:
the whole (non-empty) buffer is drained by the forced flush, the hash
set is cleared, and the new item ends up alone in the buffer with its
hash absent from `image_hashes`. -/
theorem add_to_buffer_fresh_full (md5 : List Nat → String) (s : BufState) (b : List Nat)
    (hfresh : md5 b ∉ s.image_hashes)
    (hfull : 0 < s.max_size ∧ s.max_size ≤ s.items.length) :
    add_to_buffer md5 s (.bytes b) =
      ({ s with image_hashes := ∅,
                items := [⟨.bytes b, some (md5 b)⟩],
                buffer_count := 1 }, .acceptedAfterForcedFlush, s.items) := by
  have hne : s.items ≠ [] := by
    intro h
    rw [h] at hfull
    simp only [List.length_nil] at hfull
    omega
  unfold add_to_buffer
  simp only [calculate_image_hash, isDuplicate, insertHash, putItem, decide_eq_true_eq]
  rw [if_neg (by simpa using hfresh)]
  rw [if_pos (by simpa [queueFull_iff] using hfull)]
  rw [save_worker_drain_of_ne _ (by simpa using hne)]
  rfl

/-- An `add_to_buffer` call whose hash is already in `image_hashes`:
the duplicate early return leaves the state untouched. -/
theorem add_to_buffer_duplicate (md5 : List Nat → String) (s : BufState) (b : List Nat)
    (hdup : md5 b ∈ s.image_hashes) :
    add_to_buffer md5 s (.bytes b) = (s, .duplicateSkipped, []) := by
  unfold add_to_buffer
  simp only [calculate_image_hash, isDuplicate]
  rw [if_pos (by simpa using hdup)]

/-! ### Capacity invariant machinery -/

/-- States the capacity invariant together with the positivity of the
current capacity (the spec requires `capacity` to be a positive
integer). -/
def capInv (s : BufState) : Prop :=
  s.items.length ≤ s.max_size ∧ 1 ≤ s.max_size

/-- Restricts `Resize` to positive capacities, as the spec's data model
demands (`capacity: positive integer`). -/
def opPositive : Op → Prop
  | .resize k => 1 ≤ k
  | .add _ => True
  | .drainAll => True

instance (op : Op) : Decidable (opPositive op) := by
  cases op <;> simp only [opPositive] <;> infer_instance

theorem capInv_add (md5 : List Nat → String) (s : BufState) (d : PyData)
    (h : capInv s) : capInv (add_to_buffer md5 s d).1 := by
  obtain ⟨h1, h2⟩ := h
  unfold add_to_buffer
  dsimp only
  split
  · exact ⟨h1, h2⟩
  · split
    · constructor
      · simp only [putItem_items, save_worker_drain_fst_items, List.nil_append,
          List.length_singleton, putItem_max, save_worker_drain_fst_max, insertHash_max]
        omega
      · simpa using h2
    · next hnotfull =>
      rw [queueFull_iff] at hnotfull
      simp only [insertHash_items, insertHash_max] at hnotfull
      constructor
      · simp only [putItem_items, insertHash_items, List.length_append,
          List.length_singleton, putItem_max, insertHash_max]
        omega
      · simpa using h2

theorem capInv_drain (s : BufState) (h : capInv s) : capInv (save_worker_drain s).1 :=
  ⟨by simp, by simpa using h.2⟩

theorem capInv_resize (s : BufState) (k : Nat) (hk : 1 ≤ k) (_h : capInv s) :
    capInv (set_buffer_size s k) := by
  constructor
  · simp only [set_buffer_size, List.length_take]
    omega
  · exact hk

theorem capInv_applyOp (md5 : List Nat → String) (s : BufState) (op : Op)
    (hop : opPositive op) (h : capInv s) : capInv (applyOp md5 s op) := by
  cases op with
  | add d => exact capInv_add md5 s d h
  | drainAll => exact capInv_drain s h
  | resize k => exact capInv_resize s k hop h

theorem capInv_applyOps (md5 : List Nat → String) (ops : List Op) (s : BufState)
    (hops : ∀ op ∈ ops, opPositive op) (h : capInv s) :
    capInv (applyOps md5 s ops) := by
  induction ops generalizing s with
  | nil => exact h
  | cons op ops ih =>
    simp only [applyOps, List.foldl_cons]
    exact ih _ (fun o ho => hops o (List.mem_cons_of_mem _ ho))
      (capInv_applyOp md5 s op (hops op (List.mem_cons_self _ _)) h)

/-! ### Claim C3 -/

/-- C3: for every sequence of Add, DrainAll and Resize calls starting
from an empty buffer with positive capacity, in which every Resize uses
a positive capacity, the number of buffered items never exceeds the
current capacity when any prefix of the sequence has returned; and
Resize retains exactly the oldest items up to the new capacity
(`old_buffer[:size]`). -/
theorem C3_capacity_invariant (md5 : List Nat → String) (cap : Nat) (hcap : 1 ≤ cap)
    (ops pre : List Op) (hpre : pre <+: ops) (hops : ∀ op ∈ ops, opPositive op) :
    (applyOps md5 (initState cap) pre).items.length
        ≤ (applyOps md5 (initState cap) pre).max_size
    ∧ ∀ (s : BufState) (k : Nat), (set_buffer_size s k).items = s.items.take k := by
  constructor
  · have hinv : capInv (applyOps md5 (initState cap) pre) := by
      refine capInv_applyOps md5 pre (initState cap) ?_ ⟨by simp [initState], hcap⟩
      intro op hop
      exact hops op (hpre.subset hop)
    exact hinv.1
  · intro s k
    rfl

/-- Witness for C3: the concrete sequence Add, Resize 1, DrainAll from an
empty buffer of capacity 2. -/
theorem C3_capacity_invariant_witness :
    (1 ≤ 2
      ∧ ([Op.add (.bytes [0]), Op.resize 1, Op.drainAll]
          <+: [Op.add (.bytes [0]), Op.resize 1, Op.drainAll])
      ∧ ∀ op ∈ [Op.add (.bytes [0]), Op.resize 1, Op.drainAll], opPositive op)
    ∧ ((applyOps md5Test (initState 2) [Op.add (.bytes [0]), Op.resize 1, Op.drainAll]).items.length
          ≤ (applyOps md5Test (initState 2) [Op.add (.bytes [0]), Op.resize 1, Op.drainAll]).max_size
        ∧ ∀ (s : BufState) (k : Nat), (set_buffer_size s k).items = s.items.take k) :=
  ⟨⟨by omega, List.prefix_rfl, by decide⟩,
    C3_capacity_invariant md5Test 2 (by omega) _ _ List.prefix_rfl (by decide)⟩

/-! ### Claim C1 -/

/-- C1 (counterexample): in the concrete capacity-2 run Add([0]),
Add([1]), Add([2]) with pairwise distinct content, the third Add does
force a flush that drains the first two items and leaves only the third
in the buffer, but `image_hashes` afterwards is empty rather than
containing exactly the third item's hash: the forced flush clears the
hash that was recorded just before it. -/
theorem C1_counterexample :
    (add_to_buffer md5Test (applyOps md5Test (initState 2)
        [.add (.bytes [0]), .add (.bytes [1])]) (.bytes [2])).2.1
      = .acceptedAfterForcedFlush
    ∧ ((add_to_buffer md5Test (applyOps md5Test (initState 2)
        [.add (.bytes [0]), .add (.bytes [1])]) (.bytes [2])).2.2).map Item.data
      = [.bytes [0], .bytes [1]]
    ∧ ((add_to_buffer md5Test (applyOps md5Test (initState 2)
        [.add (.bytes [0]), .add (.bytes [1])]) (.bytes [2])).1).items.map Item.data
      = [.bytes [2]]
    ∧ ((add_to_buffer md5Test (applyOps md5Test (initState 2)
        [.add (.bytes [0]), .add (.bytes [1])]) (.bytes [2])).1).image_hashes
      ≠ {md5Test [2]} := by
  decide

/-- C1 (amended): for a buffer with capacity 2, after Add(A), Add(B),
Add(C) with pairwise distinct hashes, the third Add first flushes the
buffer (A and B are drained for persistence), then inserts C into the
now-empty buffer; afterwards `seen_hashes` is empty — C's hash, recorded
before the forced flush, is cleared by that flush together with A's and
B's. -/
theorem C1_forced_flush (md5 : List Nat → String) (a b c : List Nat)
    (hab : md5 a ≠ md5 b) (hac : md5 a ≠ md5 c) (hbc : md5 b ≠ md5 c) :
    (add_to_buffer md5 (initState 2) (.bytes a)).2.1 = .accepted
    ∧ (add_to_buffer md5 (add_to_buffer md5 (initState 2) (.bytes a)).1
        (.bytes b)).2.1 = .accepted
    ∧ (add_to_buffer md5 (add_to_buffer md5 (add_to_buffer md5 (initState 2)
        (.bytes a)).1 (.bytes b)).1 (.bytes c)).2.1 = .acceptedAfterForcedFlush
    ∧ (add_to_buffer md5 (add_to_buffer md5 (add_to_buffer md5 (initState 2)
        (.bytes a)).1 (.bytes b)).1 (.bytes c)).2.2
      = [⟨.bytes a, some (md5 a)⟩, ⟨.bytes b, some (md5 b)⟩]
    ∧ ((add_to_buffer md5 (add_to_buffer md5 (add_to_buffer md5 (initState 2)
        (.bytes a)).1 (.bytes b)).1 (.bytes c)).1).items
      = [⟨.bytes c, some (md5 c)⟩]
    ∧ ((add_to_buffer md5 (add_to_buffer md5 (add_to_buffer md5 (initState 2)
        (.bytes a)).1 (.bytes b)).1 (.bytes c)).1).image_hashes = ∅ := by
  have e1 : add_to_buffer md5 (initState 2) (.bytes a)
      = (⟨2, [⟨.bytes a, some (md5 a)⟩], 1, insert (md5 a) ∅⟩, .accepted, []) := by
    rw [add_to_buffer_fresh_notFull md5 (initState 2) a (by simp [initState])
      (by simp [initState])]
    rfl
  have e2 : add_to_buffer md5
      (⟨2, [⟨.bytes a, some (md5 a)⟩], 1, insert (md5 a) ∅⟩ : BufState) (.bytes b)
      = (⟨2, [⟨.bytes a, some (md5 a)⟩, ⟨.bytes b, some (md5 b)⟩], 2,
          insert (md5 b) (insert (md5 a) ∅)⟩, .accepted, []) := by
    rw [add_to_buffer_fresh_notFull md5 _ b ?_ (by simp)]
    · rfl
    · intro hmem
      simp only [Finset.mem_insert, Finset.not_mem_empty, or_false] at hmem
      exact hab hmem.symm
  have e3 : add_to_buffer md5
      (⟨2, [⟨.bytes a, some (md5 a)⟩, ⟨.bytes b, some (md5 b)⟩], 2,
        insert (md5 b) (insert (md5 a) ∅)⟩ : BufState) (.bytes c)
      = (⟨2, [⟨.bytes c, some (md5 c)⟩], 1, ∅⟩, .acceptedAfterForcedFlush,
          [⟨.bytes a, some (md5 a)⟩, ⟨.bytes b, some (md5 b)⟩]) := by
    rw [add_to_buffer_fresh_full md5 _ c ?_ (by simp)]
    · intro hmem
      simp only [Finset.mem_insert, Finset.not_mem_empty, or_false] at hmem
      rcases hmem with hm | hm
      · exact hbc hm.symm
      · exact hac hm.symm
  refine ⟨?_, ?_, ?_, ?_, ?_, ?_⟩ <;> simp only [e1, e2, e3]

/-- Witness for C1 (amended): the concrete byte strings [0], [1], [2]
under the stand-in digest. -/
theorem C1_forced_flush_witness :
    (md5Test [0] ≠ md5Test [1] ∧ md5Test [0] ≠ md5Test [2]
      ∧ md5Test [1] ≠ md5Test [2])
    ∧ ((add_to_buffer md5Test (initState 2) (.bytes [0])).2.1 = .accepted
    ∧ (add_to_buffer md5Test (add_to_buffer md5Test (initState 2) (.bytes [0])).1
        (.bytes [1])).2.1 = .accepted
    ∧ (add_to_buffer md5Test (add_to_buffer md5Test (add_to_buffer md5Test (initState 2)
        (.bytes [0])).1 (.bytes [1])).1 (.bytes [2])).2.1 = .acceptedAfterForcedFlush
    ∧ (add_to_buffer md5Test (add_to_buffer md5Test (add_to_buffer md5Test (initState 2)
        (.bytes [0])).1 (.bytes [1])).1 (.bytes [2])).2.2
      = [⟨.bytes [0], some (md5Test [0])⟩, ⟨.bytes [1], some (md5Test [1])⟩]
    ∧ ((add_to_buffer md5Test (add_to_buffer md5Test (add_to_buffer md5Test (initState 2)
        (.bytes [0])).1 (.bytes [1])).1 (.bytes [2])).1).items
      = [⟨.bytes [2], some (md5Test [2])⟩]
    ∧ ((add_to_buffer md5Test (add_to_buffer md5Test (add_to_buffer md5Test (initState 2)
        (.bytes [0])).1 (.bytes [1])).1 (.bytes [2])).1).image_hashes = ∅) :=
  ⟨⟨by decide, by decide, by decide⟩,
    C1_forced_flush md5Test [0] [1] [2] (by decide) (by decide) (by decide)⟩

/-! ### Claim C2 -/

/-- C2 (counterexample): with capacity 1, after Add([0]) then Add([1])
(the second Add triggers a forced flush), the buffer holds the item for
[1] but `image_hashes` is empty, so `seen_hashes` is not the set of
hashes of the items currently held. -/
theorem C2_counterexample :
    ¬ seenMatchesBuffered
      (applyOps md5Test (initState 1) [.add (.bytes [0]), .add (.bytes [1])]) := by
  decide

/-- C2 (amended): a `_save_worker` flush of a non-empty buffer leaves
both the buffer and `seen_hashes` empty, so they agree at that point; a
flush of an empty buffer is a no-op that does not clear `seen_hashes`.
(After an Add that triggers a forced flush, or a Resize that drops
items, the equality between `seen_hashes` and the buffered hashes does
not hold, as `C2_counterexample` shows.) -/
theorem C2_flush_resets (s : BufState) :
    (s.items = [] → (save_worker_drain s).1 = s)
    ∧ (s.items ≠ [] →
        (save_worker_drain s).1.items = []
        ∧ (save_worker_drain s).1.image_hashes = ∅
        ∧ seenMatchesBuffered (save_worker_drain s).1) := by
  constructor
  · intro h
    rw [save_worker_drain_of_empty s h]
  · intro h
    rw [save_worker_drain_of_ne s h]
    exact ⟨rfl, rfl, rfl⟩

/-- Witness for C2 (amended): a concrete one-item buffer state. -/
theorem C2_flush_resets_witness :
    ((⟨1, [⟨.bytes [0], some "h0"⟩], 1, {"h0"}⟩ : BufState).items ≠ []
    ∧ ((save_worker_drain ⟨1, [⟨.bytes [0], some "h0"⟩], 1, {"h0"}⟩).1.items = []
        ∧ (save_worker_drain ⟨1, [⟨.bytes [0], some "h0"⟩], 1, {"h0"}⟩).1.image_hashes = ∅
        ∧ seenMatchesBuffered (save_worker_drain ⟨1, [⟨.bytes [0], some "h0"⟩], 1, {"h0"}⟩).1)) :=
  ⟨by decide, (C2_flush_resets ⟨1, [⟨.bytes [0], some "h0"⟩], 1, {"h0"}⟩).2 (by decide)⟩

/-! ### Hash-set monotonicity along flush-free Adds -/

@[simp]
theorem putItem_hashes (s : BufState) (it : Item) :
    (putItem s it).image_hashes = s.image_hashes := rfl

theorem insertHash_hashes_mono (s : BufState) (o : Option String) (h : String)
    (hmem : h ∈ s.image_hashes) : h ∈ (insertHash s o).image_hashes := by
  cases o with
  | none => exact hmem
  | some h2 => exact Finset.mem_insert_of_mem hmem

/-- A hash present in `image_hashes` survives any `add_to_buffer` call
that does not take the buffer-full (forced flush) branch. -/
theorem mem_hashes_add (md5 : List Nat → String) (s : BufState) (d : PyData) (h : String)
    (hmem : h ∈ s.image_hashes)
    (hnf : ¬ addForcedFlush md5 s d) :
    h ∈ ((add_to_buffer md5 s d).1).image_hashes := by
  unfold addForcedFlush at hnf
  unfold add_to_buffer at hnf ⊢
  dsimp only at hnf ⊢
  split at hnf
  · next hdup => rw [if_pos hdup]; exact hmem
  · next hdup =>
    rw [if_neg hdup]
    split at hnf
    · exact absurd rfl hnf
    · next hfull =>
      rw [if_neg hfull]
      exact insertHash_hashes_mono s _ h hmem

/-- A hash present in `image_hashes` survives a flush-free sequence of
`add_to_buffer` calls. -/
theorem mem_hashes_applyAdds (md5 : List Nat → String) (s : BufState) (ds : List PyData)
    (h : String) (hmem : h ∈ s.image_hashes) (hnf : noFlushSeq md5 s ds) :
    h ∈ (applyAdds md5 s ds).image_hashes := by
  induction ds generalizing s with
  | nil => exact hmem
  | cons d ds ih =>
    obtain ⟨hd, hds⟩ := hnf
    exact ih _ (mem_hashes_add md5 s d h hmem hd) hds

/-- An `add_to_buffer` call on a byte string that does not take the
buffer-full branch leaves the byte string's hash in `image_hashes`. -/
theorem add_records_hash (md5 : List Nat → String) (s : BufState) (b : List Nat)
    (hnf : ¬ addForcedFlush md5 s (.bytes b)) :
    md5 b ∈ ((add_to_buffer md5 s (.bytes b)).1).image_hashes := by
  unfold addForcedFlush at hnf
  unfold add_to_buffer at hnf ⊢
  simp only [calculate_image_hash] at hnf ⊢
  split at hnf
  · next hdup =>
    rw [if_pos hdup]
    simpa [isDuplicate] using hdup
  · next hdup =>
    rw [if_neg hdup]
    split at hnf
    · exact absurd rfl hnf
    · next hfull =>
      rw [if_neg hfull]
      exact Finset.mem_insert_self _ _

/-! ### Claim C5 -/

/-- C5: within one unflushed window — the first Add does not itself
trigger a forced flush and no flush happens in between — an Add of image
A followed (possibly after further flush-free Adds) by an Add of an
image with the same raw bytes makes the second Add a duplicate skip:
the image is discarded, the state is unchanged (so the buffer length
does not increase) and nothing is drained. -/
theorem C5_dedup (md5 : List Nat → String) (s : BufState) (a : List Nat) (ds : List PyData)
    (h1 : ¬ addForcedFlush md5 s (.bytes a))
    (h2 : noFlushSeq md5 (add_to_buffer md5 s (.bytes a)).1 ds) :
    add_to_buffer md5 (applyAdds md5 (add_to_buffer md5 s (.bytes a)).1 ds) (.bytes a)
      = (applyAdds md5 (add_to_buffer md5 s (.bytes a)).1 ds, .duplicateSkipped, []) := by
  apply add_to_buffer_duplicate
  exact mem_hashes_applyAdds md5 _ ds (md5 a) (add_records_hash md5 s a h1) h2

/-- Witness for C5: Add([7]) then Add([8]) then the duplicate Add([7])
in a capacity-3 buffer. -/
theorem C5_dedup_witness :
    (¬ addForcedFlush md5Test (initState 3) (.bytes [7]))
    ∧ noFlushSeq md5Test (add_to_buffer md5Test (initState 3) (.bytes [7])).1 [.bytes [8]]
    ∧ add_to_buffer md5Test
        (applyAdds md5Test (add_to_buffer md5Test (initState 3) (.bytes [7])).1 [.bytes [8]])
        (.bytes [7])
      = (applyAdds md5Test (add_to_buffer md5Test (initState 3) (.bytes [7])).1 [.bytes [8]],
          .duplicateSkipped, []) :=
  ⟨by decide, by decide,
    C5_dedup md5Test (initState 3) [7] [.bytes [8]] (by decide) (by decide)⟩

/-! ### Claim C8 -/

/-- C8: whenever `calculate_image_hash` fails (returns the `None`
sentinel), the Add is never reported as a duplicate, the image is
always admitted into the buffer (appended at the tail, after a forced
flush when the queue was full) with no hash stored in its entry, and
`image_hashes` gains nothing for it (it is either left unchanged or
merely cleared by the forced flush). -/
theorem C8_unhashable_admitted (md5 : List Nat → String) (s : BufState) (d : PyData)
    (hfail : calculate_image_hash md5 d = none) :
    (add_to_buffer md5 s d).2.1 ≠ .duplicateSkipped
    ∧ ((add_to_buffer md5 s d).1).items
        = (if queueFull s then [] else s.items) ++ [⟨d, none⟩]
    ∧ ((add_to_buffer md5 s d).1).image_hashes
        = (if queueFull s then ∅ else s.image_hashes) := by
  cases d with
  | bytes b => exact absurd hfail (by simp [calculate_image_hash])
  | malformed =>
    unfold add_to_buffer
    simp only [calculate_image_hash, isDuplicate, insertHash]
    rw [if_neg (by simp)]
    by_cases hfull : queueFull s = true
    · have hne : s.items ≠ [] := by
        rw [queueFull_iff] at hfull
        intro h
        rw [h] at hfull
        simp only [List.length_nil] at hfull
        omega
      rw [if_pos hfull, if_pos hfull, if_pos hfull,
        save_worker_drain_of_ne s hne]
      exact ⟨by simp, rfl, rfl⟩
    · rw [if_neg hfull, if_neg hfull, if_neg hfull]
      exact ⟨by simp, rfl, rfl⟩

/-- Witness for C8: a malformed input added to a full one-item buffer
that already holds an identical malformed item. -/
theorem C8_unhashable_admitted_witness :
    calculate_image_hash md5Test .malformed = none
    ∧ ((add_to_buffer md5Test (⟨1, [⟨.malformed, none⟩], 1, ∅⟩ : BufState) .malformed).2.1
        ≠ .duplicateSkipped
    ∧ ((add_to_buffer md5Test (⟨1, [⟨.malformed, none⟩], 1, ∅⟩ : BufState) .malformed).1).items
        = (if queueFull ⟨1, [⟨.malformed, none⟩], 1, ∅⟩ then []
            else (⟨1, [⟨.malformed, none⟩], 1, ∅⟩ : BufState).items) ++ [⟨.malformed, none⟩]
    ∧ ((add_to_buffer md5Test (⟨1, [⟨.malformed, none⟩], 1, ∅⟩ : BufState) .malformed).1).image_hashes
        = (if queueFull ⟨1, [⟨.malformed, none⟩], 1, ∅⟩ then ∅
            else (⟨1, [⟨.malformed, none⟩], 1, ∅⟩ : BufState).image_hashes)) :=
  ⟨rfl, C8_unhashable_admitted md5Test ⟨1, [⟨.malformed, none⟩], 1, ∅⟩ .malformed rfl⟩

/-! ### Lock-usage traces (claim C4)

`BufferManager.add_to_buffer` wraps its whole body in `with self.lock`
(buffer.py line 80).  `BufferManager._save_worker` (lines 168-225)
acquires no lock itself, so its buffer mutations run under the lock only
when the caller already holds it: the forced flush inside
`add_to_buffer` does, but `_auto_save_worker` (lines 162-166) and
`SmartBoardApp.check_save_times` (main.py line 671) call `_save_worker`
directly with no lock.  The traces below record, per primitive mutation
of the shared buffer state, whether `self.lock` is held. -/

/-- A primitive mutation of the shared buffer state in buffer.py. -/
inductive BufMutation where
  | queueGet      -- `self.ram_buffer.get()`
  | queuePut      -- `self.ram_buffer.put(...)`
  | hashesInsert  -- `self.image_hashes.add(...)`
  | hashesClear   -- `self.image_hashes.clear()`
  | countUpdate   -- `self.buffer_count = ...`
deriving DecidableEq, Repr

/-- One mutation step tagged with whether `BufferManager.lock` is held
while it executes. -/
structure LockedStep where
  mutation : BufMutation
  lockHeld : Bool
deriving DecidableEq, Repr

/-- The mutation trace of `_save_worker` (buffer.py lines 168-225) on a
buffer holding `batch` items. The body contains no `with self.lock`, so
its steps hold the lock exactly when the caller already does
(`locked`). An empty buffer returns early with no mutation; otherwise
each item is removed by `get()`, then `buffer_count` is refreshed and
`image_hashes.clear()` runs. -/
def save_worker_steps (locked : Bool) (batch : Nat) : List LockedStep :=
  if batch = 0 then []
  else List.replicate batch ⟨.queueGet, locked⟩
    ++ [⟨.countUpdate, locked⟩, ⟨.hashesClear, locked⟩]

/-- The mutation trace of `add_to_buffer` (buffer.py lines 78-141),
whose whole body runs inside `with self.lock`: possibly a hash insert,
then — when the queue is full — the nested `_save_worker()` forced
flush still under the lock, then the `put` and the count refresh. -/
def add_to_buffer_steps (isDup hashTruthy full : Bool) (batch : Nat) : List LockedStep :=
  if isDup then []
  else (if hashTruthy then [⟨.hashesInsert, true⟩] else [])
    ++ (if full then save_worker_steps true batch else [])
    ++ [⟨.queuePut, true⟩, ⟨.countUpdate, true⟩]

/-- The mutation trace of one `_auto_save_worker` iteration (buffer.py
lines 162-166): the auto-save thread calls `self._save_worker()`
directly, without acquiring `self.lock`. -/
def auto_save_tick_steps (batch : Nat) : List LockedStep :=
  save_worker_steps false batch

/-- The mutation trace of the scheduled-time flush
(`SmartBoardApp.check_save_times`, main.py lines 659-684): it calls
`self.buffer_manager._save_worker()` directly, without acquiring the
buffer lock. -/
def check_save_times_steps (batch : Nat) : List LockedStep :=
  save_worker_steps false batch

/-- Every step of the trace runs while the buffer lock is held. -/
def allLocked (steps : List LockedStep) : Prop :=
  ∀ st ∈ steps, st.lockHeld = true

theorem allLocked_save_worker_true (batch : Nat) :
    allLocked (save_worker_steps true batch) := by
  intro st hst
  unfold save_worker_steps at hst
  split at hst
  · simp at hst
  · rcases List.mem_append.1 hst with h | h
    · rw [List.eq_of_mem_replicate h]
    · simp only [List.mem_cons, List.not_mem_nil, or_false] at h
      rcases h with rfl | rfl <;> rfl

theorem not_allLocked_save_worker_false (batch : Nat) (hb : 1 ≤ batch) :
    ¬ allLocked (save_worker_steps false batch) := by
  intro hall
  have hmem : (⟨.countUpdate, false⟩ : LockedStep) ∈ save_worker_steps false batch := by
    unfold save_worker_steps
    rw [if_neg (by omega)]
    exact List.mem_append_right _ (by simp)
  have hfalse := hall _ hmem
  simp at hfalse

/-! ### Claim C4 -/

/-- C4 (counterexample): the auto-save thread's `_save_worker` call on a
one-item buffer mutates the buffer (`get()`, count update, hash clear)
without holding `BufferManager.lock`. -/
theorem C4_counterexample : ¬ allLocked (auto_save_tick_steps 1) := by
  intro hall
  have hfalse := hall ⟨.countUpdate, false⟩ (by decide)
  simp at hfalse

/-- C4 (amended): every buffer mutation performed by `add_to_buffer` —
including the forced flush it runs while full — executes under
`BufferManager.lock`, but `_save_worker` acquires no lock of its own,
so its mutations run without the lock whenever it is invoked from the
periodic auto-save thread or from the scheduled-time check on a
non-empty buffer. -/
theorem C4_locking (isDup hashTruthy full : Bool) (batch : Nat) (hb : 1 ≤ batch) :
    allLocked (add_to_buffer_steps isDup hashTruthy full batch)
    ∧ ¬ allLocked (auto_save_tick_steps batch)
    ∧ ¬ allLocked (check_save_times_steps batch) := by
  refine ⟨?_, not_allLocked_save_worker_false batch hb,
    not_allLocked_save_worker_false batch hb⟩
  intro st hst
  unfold add_to_buffer_steps at hst
  split at hst
  · simp at hst
  · rcases List.mem_append.1 hst with h | h
    · rcases List.mem_append.1 h with h2 | h2
      · cases hashTruthy with
        | false => simp at h2
        | true =>
          simp only [if_pos, List.mem_cons, List.not_mem_nil, or_false] at h2
          rw [h2]
      · cases full with
        | false => simp at h2
        | true => exact allLocked_save_worker_true batch st (by simpa using h2)
    · simp only [List.mem_cons, List.not_mem_nil, or_false] at h
      rcases h with rfl | rfl <;> rfl

/-- Witness for C4 (amended): a non-duplicate, truthy-hash, buffer-full
Add with a two-item flushed batch. -/
theorem C4_locking_witness :
    1 ≤ 2
    ∧ (allLocked (add_to_buffer_steps false true true 2)
      ∧ ¬ allLocked (auto_save_tick_steps 2)
      ∧ ¬ allLocked (check_save_times_steps 2)) :=
  ⟨by omega, C4_locking false true true 2 (by omega)⟩

/-! ### Scheduler loop (claims C9) -/

/-- An observable event of one `MonitorThread.run` loop iteration
(main.py lines 60-108). -/
inductive SchedEvent where
  | sleepMs (n : Nat)  -- `self.msleep(n)`
  | logInfo            -- `self.log_signal.emit("INFO", ...)`
  | logError           -- `self.log_signal.emit("ERROR", ...)`
  | statusError        -- `self.status_signal.emit("error", ...)`
  | captureEmitted     -- `self.capture_signal.emit(pixmap)`
deriving DecidableEq, Repr

/-- The `MonitorThread` state an iteration reads: the stop flag and the
capture-enabled flag. -/
structure SchedState where
  stop_flag : Bool
  capture_enabled : Bool
deriving DecidableEq, Repr

/-- What the environment makes of the tick body: the capture produced
no image, produced an image, or some step of the body (capture, signal
emission, hand-off) raised an exception. -/
inductive TickBehaviour where
  | noImage
  | image
  | raises
deriving DecidableEq, Repr

/-- Embeds the stop-flag-checked interval wait (main.py lines 95-98):
up to `intervalTenths` sleeps of 100 ms, skipped once the stop flag is
set. -/
def intervalSleeps (stop : Bool) (intervalTenths : Nat) : List SchedEvent :=
  if stop then [] else List.replicate intervalTenths (.sleepMs 100)

/-- Embeds one iteration of the `while not self.stop_flag` body of
`MonitorThread.run` (main.py lines 67-104): with capture disabled the
iteration just sleeps 100 ms and re-checks; otherwise the tick body
runs inside `try`, and `except Exception` catches any exception, emits
an ERROR log and an error status, sleeps the 1000 ms backoff and falls
through to the next iteration, touching neither flag. -/
def monitorTick (intervalTenths : Nat) (beh : TickBehaviour) (s : SchedState) :
    SchedState × List SchedEvent :=
  if !s.capture_enabled then (s, [.sleepMs 100])
  else
    match beh with
    | .raises => (s, [.logError, .statusError, .sleepMs 1000])
    | .noImage => (s, intervalSleeps s.stop_flag intervalTenths)
    | .image => (s, [.captureEmitted, .logInfo] ++ intervalSleeps s.stop_flag intervalTenths)

/-- Embeds the `while not self.stop_flag` loop condition: another
iteration runs exactly when the stop flag is unset. -/
def loopContinues (s : SchedState) : Bool :=
  !s.stop_flag

/-! ### Claim C9 -/

/-- C9: when any exception is raised inside an enabled scheduler tick,
the iteration leaves the thread state untouched, emits exactly the
ERROR log, the error status notification and the 1-second backoff
sleep, and whether the loop continues is unchanged — in particular,
with the stop flag unset the loop proceeds to the next iteration, so a
tick's exception never terminates the scheduler loop. -/
theorem C9_tick_exception_contained (intervalTenths : Nat) (s : SchedState)
    (hen : s.capture_enabled = true) :
    (monitorTick intervalTenths .raises s).1 = s
    ∧ (monitorTick intervalTenths .raises s).2 = [.logError, .statusError, .sleepMs 1000]
    ∧ loopContinues (monitorTick intervalTenths .raises s).1 = loopContinues s
    ∧ (s.stop_flag = false → loopContinues (monitorTick intervalTenths .raises s).1 = true) := by
  unfold monitorTick
  rw [hen]
  refine ⟨rfl, rfl, rfl, ?_⟩
  intro hstop
  simp [loopContinues, hstop]

/-- Witness for C9: a running, capture-enabled scheduler state with a
60-second interval. -/
theorem C9_tick_exception_contained_witness :
    (⟨false, true⟩ : SchedState).capture_enabled = true
    ∧ ((monitorTick 600 .raises ⟨false, true⟩).1 = ⟨false, true⟩
    ∧ (monitorTick 600 .raises ⟨false, true⟩).2 = [.logError, .statusError, .sleepMs 1000]
    ∧ loopContinues (monitorTick 600 .raises ⟨false, true⟩).1
        = loopContinues ⟨false, true⟩
    ∧ ((⟨false, true⟩ : SchedState).stop_flag = false →
        loopContinues (monitorTick 600 .raises ⟨false, true⟩).1 = true)) :=
  ⟨rfl, C9_tick_exception_contained 600 ⟨false, true⟩ rfl⟩

/-! ### Foreground-window capture (claim C6) -/

/-- Embeds `str.lower()` on a Python string (list of characters). -/
def lowerStr (s : List Char) : List Char :=
  s.map Char.toLower

/-- Embeds `str.strip()`: removes leading and trailing whitespace. -/
def stripStr (s : List Char) : List Char :=
  ((s.dropWhile Char.isWhitespace).reverse.dropWhile Char.isWhitespace).reverse

/-- The characters of the `.exe` suffix. -/
def exeSuffix : List Char :=
  ['.', 'e', 'x', 'e']

/-- Embeds the per-entry normalisation in `_is_target_process`
(screenshot.py lines 64-67): `target_name.strip().lower()`, then append
`.exe` when the name does not already end with it. -/
def normalizeTarget (t : List Char) : List Char :=
  let t1 := lowerStr (stripStr t)
  if exeSuffix.isSuffixOf t1 then t1 else t1 ++ exeSuffix

/-- Embeds Python's `in` on strings: `pat in hay` is substring
containment. -/
def strContains (hay pat : List Char) : Bool :=
  hay.tails.any (fun suf => pat.isPrefixOf suf)

/-- Embeds `ScreenshotManager._is_target_process` (screenshot.py lines
56-74): look up the foreground process's name (`none` when
`GetWindowThreadProcessId`, `psutil.Process` or `process.name()`
raises, in which case the `except` returns False), lowercase it once,
and return True iff some normalised entry of `process_names` occurs in
it as a substring (`if target_name in process_name`). -/
def is_target_process (procName : Option (List Char)) (process_names : List (List Char)) :
    Bool :=
  match procName with
  | none => false
  | some pn => process_names.any (fun t => strContains (lowerStr pn) (normalizeTarget t))

/-- The OS environment one `capture_foreground_window` call sees. -/
structure ForegroundEnv where
  fgOk : Bool                    -- `win32gui.GetForegroundWindow()` succeeds
  procName : Option (List Char)  -- foreground process name, `none` when the lookup raises
  grabOk : Bool                  -- `GetWindowRect` and `grabWindow` succeed
deriving DecidableEq, Repr

/-- Embeds `ScreenshotManager.capture_foreground_window`
(screenshot.py lines 32-54): resolve the foreground window; when
`process_names` is non-empty (Python truthiness) and
`_is_target_process` rejects it, return `None` (no capture, not an
error); otherwise grab and return the window image. Any raised OS
error is caught and yields `None`; `some ()` stands for a returned
image. -/
def capture_foreground_window (env : ForegroundEnv) (process_names : List (List Char)) :
    Option Unit :=
  if !env.fgOk then none
  else if !process_names.isEmpty && !is_target_process env.procName process_names then none
  else if env.grabOk then some () else none

/-- States the SPEC's reading of the filter: the process's base
executable name matches an entry when the lowercased executable name —
`.exe` appended when missing — equals the normalised entry
(case-insensitive, optional `.exe` suffix normalised). -/
def specNameMatches (pn : List Char) (t : List Char) : Bool :=
  (if exeSuffix.isSuffixOf (lowerStr pn) then lowerStr pn else lowerStr pn ++ exeSuffix)
    == normalizeTarget t

theorem capture_eq_some_iff (env : ForegroundEnv) (names : List (List Char))
    (hfg : env.fgOk = true) (hgrab : env.grabOk = true) :
    (capture_foreground_window env names = some ()
      ↔ (names.isEmpty = true ∨ is_target_process env.procName names = true)) := by
  unfold capture_foreground_window
  rw [hfg, hgrab]
  cases he : names.isEmpty <;>
    cases ht : is_target_process env.procName names <;> simp

/-! ### Claim C6 -/

/-- C6 (counterexample): with the foreground process `notepad.exe` and
the single entry `pad`, the capture returns an image even though the
process's base executable name does not match the normalised entry
`pad.exe`: the code tests substring containment
(`target_name in process_name`), not a match of the executable name. -/
theorem C6_counterexample :
    capture_foreground_window ⟨true, some ("notepad.exe".toList), true⟩ ["pad".toList]
      = some ()
    ∧ (∀ t ∈ (["pad".toList] : List (List Char)),
        specNameMatches ("notepad.exe".toList) t = false) := by
  decide

/-- C6 (amended): with the OS lookups succeeding and a non-empty entry
set, `capture_foreground_window` returns an image iff the foreground
process name resolves and some normalised entry (stripped, lowercased,
`.exe` appended when missing) occurs as a substring of the lowercased
process name; otherwise — including when the process lookup raises —
it returns none rather than an error. -/
theorem C6_substring_filter (env : ForegroundEnv) (process_names : List (List Char))
    (hfg : env.fgOk = true) (hgrab : env.grabOk = true)
    (hne : process_names.isEmpty = false) :
    (capture_foreground_window env process_names = some ()
      ↔ ∃ pn, env.procName = some pn
          ∧ ∃ t ∈ process_names, strContains (lowerStr pn) (normalizeTarget t) = true) := by
  rw [capture_eq_some_iff env process_names hfg hgrab, hne]
  constructor
  · rintro (h | h)
    · cases h
    · cases hp : env.procName with
      | none =>
        rw [hp] at h
        cases h
      | some pn =>
        rw [hp] at h
        refine ⟨pn, rfl, ?_⟩
        simpa [is_target_process, List.any_eq_true] using h
  · rintro ⟨pn, hpn, t, ht, hc⟩
    right
    rw [hpn]
    simp only [is_target_process, List.any_eq_true]
    exact ⟨t, ht, hc⟩

/-- Witness for C6 (amended): foreground process `python.exe` against
the entry list containing `python`. -/
theorem C6_substring_filter_witness :
    (⟨true, some ("python.exe".toList), true⟩ : ForegroundEnv).fgOk = true
    ∧ (⟨true, some ("python.exe".toList), true⟩ : ForegroundEnv).grabOk = true
    ∧ ([("python".toList)] : List (List Char)).isEmpty = false
    ∧ (capture_foreground_window ⟨true, some ("python.exe".toList), true⟩
          [("python".toList)] = some ()
        ↔ ∃ pn, (⟨true, some ("python.exe".toList), true⟩ : ForegroundEnv).procName = some pn
            ∧ ∃ t ∈ ([("python".toList)] : List (List Char)),
                strContains (lowerStr pn) (normalizeTarget t) = true) :=
  ⟨rfl, rfl, rfl,
    C6_substring_filter ⟨true, some ("python.exe".toList), true⟩ [("python".toList)]
      rfl rfl rfl⟩

/-! ### Flush-worker persistence (claims C7, C10) -/

/-- A filesystem path as its list of components: `os.path.join` appends
a component, `os.path.dirname` drops the last one, `os.path.basename`
takes it. -/
abbrev FsPath := List String

/-- The outcome the oracle assigns to one filesystem call. -/
inductive FsOutcome where
  | ok
  | permError   -- the call raises PermissionError
  | otherError  -- the call raises some other exception
deriving DecidableEq, Repr

/-- The environment of one `_save_worker` run: the outcome of
`os.makedirs(p, exist_ok=True)` per directory, of
`pixmap.save(p, "PNG")` per file path, and whether
`QPixmap.loadFromData` yields a non-null pixmap per raw data. -/
structure World where
  mkdir : FsPath → FsOutcome
  save : FsPath → FsOutcome
  decodeOk : PyData → Bool

/-- One buffered item as `_save_worker` reads it (buffer.py lines
177-179): the raw data, the date folder name and the full file path
computed at capture time. -/
structure SaveItem where
  data : PyData
  date_str : String
  filepath : FsPath
deriving DecidableEq, Repr

/-- The fixed fallback root
`os.path.join(os.path.expanduser("~"), "Documents",
"SmartBoardScreenshots")` (buffer.py lines 187, 200). -/
def fallbackRoot : FsPath :=
  ["~", "Documents", "SmartBoardScreenshots"]

/-- The per-item fallback directory `join(fallbackRoot, date_str)`. -/
def itemFallbackDir (it : SaveItem) : FsPath :=
  fallbackRoot ++ [it.date_str]

/-- An observable action of `_save_worker` while handling one item. -/
inductive IoEvent where
  | mkdirAttempt (p : FsPath) (r : FsOutcome)  -- os.makedirs(p, exist_ok=True)
  | saveAttempt (p : FsPath) (r : FsOutcome)   -- pixmap.save(p, "PNG")
  | logSaved (file : String)                   -- add_log("INFO", saved ...)
  | logItemError                               -- per-item except: add_log("ERROR", ...)
deriving DecidableEq, Repr

/-- Embeds `os.path.basename` on a component path. -/
def basename (p : FsPath) : String :=
  p.getLastD ""

/-- True exactly for directory-creation events. -/
def isMkdirEvent : IoEvent → Bool
  | .mkdirAttempt _ _ => true
  | _ => false

/-- Embeds the write phase of one item (buffer.py lines 191-209), for
the file path `fp` chosen by the directory phase: decode the raw
bytes; a null pixmap skips the item silently (no write, no log, not
counted); otherwise try `pixmap.save(fp)`, and on any exception
re-create the fallback directory and retry the save once at the
fallback path. A failure of the fallback `makedirs` or of the retried
save reaches the per-item handler (`logItemError`). Returns the events
and the `saved_count` increment. -/
def writePhase (w : World) (it : SaveItem) (fp : FsPath) : List IoEvent × Nat :=
  if w.decodeOk it.data then
    match w.save fp with
    | .ok => ([.saveAttempt fp .ok, .logSaved (basename fp)], 1)
    | e1 =>
      let ud := itemFallbackDir it
      let backup := ud ++ [basename fp]
      match w.mkdir ud with
      | .ok =>
        match w.save backup with
        | .ok => ([.saveAttempt fp e1, .mkdirAttempt ud .ok, .saveAttempt backup .ok,
                    .logSaved (basename backup)], 1)
        | e2 => ([.saveAttempt fp e1, .mkdirAttempt ud .ok, .saveAttempt backup e2,
                    .logItemError], 0)
      | e => ([.saveAttempt fp e1, .mkdirAttempt ud e, .logItemError], 0)
  else ([], 0)

/-- Embeds the handling of one drained item in `_save_worker`'s loop
(buffer.py lines 175-215): ensure the item's date directory exists,
retrying once against the fallback directory on a PermissionError (a
non-permission failure, or a failure of the fallback `makedirs`,
reaches the per-item `except` which logs an ERROR and gives the item
up); then run the write phase at the chosen path. -/
def processItem (w : World) (it : SaveItem) : List IoEvent × Nat :=
  match w.mkdir it.filepath.dropLast with
  | .ok =>
    let r := writePhase w it it.filepath
    (.mkdirAttempt it.filepath.dropLast .ok :: r.1, r.2)
  | .permError =>
    let ud := itemFallbackDir it
    let fp := ud ++ [basename it.filepath]
    match w.mkdir ud with
    | .ok =>
      let r := writePhase w it fp
      (.mkdirAttempt it.filepath.dropLast .permError :: .mkdirAttempt ud .ok :: r.1, r.2)
    | e => ([.mkdirAttempt it.filepath.dropLast .permError, .mkdirAttempt ud e,
              .logItemError], 0)
  | .otherError => ([.mkdirAttempt it.filepath.dropLast .otherError, .logItemError], 0)

/-- Embeds the whole drain loop of `_save_worker` (buffer.py lines
175-215): every drained item is handled under its own `try`, so the
loop always continues to the next item; `saved_count` is the sum of the
per-item increments. -/
def save_worker_io (w : World) : List SaveItem → List IoEvent × Nat
  | [] => ([], 0)
  | it :: rest =>
    ((processItem w it).1 ++ (save_worker_io w rest).1,
      (processItem w it).2 + (save_worker_io w rest).2)

theorem save_worker_io_append (w : World) (l1 l2 : List SaveItem) :
    save_worker_io w (l1 ++ l2)
      = ((save_worker_io w l1).1 ++ (save_worker_io w l2).1,
          (save_worker_io w l1).2 + (save_worker_io w l2).2) := by
  induction l1 with
  | nil => simp [save_worker_io]
  | cons it rest ih =>
    simp only [List.cons_append, save_worker_io, List.append_eq, ih, List.append_assoc,
      Nat.add_assoc]

/-! ### Claim C7 -/

/-- C7: in one flush batch of four items exercising the failure modes —
item 1's primary directory creation is denied and the fallback
directory creation also fails; item 2's directory is fine but its write
is denied while the fallback write succeeds; item 3 succeeds outright;
item 4's primary directory creation is denied, the fallback directory
succeeds and the write lands at the fallback path — each failing
operation is retried exactly once against the fixed fallback root
before the item is given up on (item 1 performs exactly the primary and
the single fallback directory attempt, then logs an ERROR and drops the
item with no write attempt; item 2 performs exactly the primary and the
single fallback write attempt), and one item's failure never prevents
the remaining items of the batch from being processed: the run performs
all four items' actions in order and saves three of them. -/
theorem C7_fallback_retry (w : World) (it1 it2 it3 it4 : SaveItem)
    (h11 : w.mkdir it1.filepath.dropLast = .permError)
    (h12 : w.mkdir (itemFallbackDir it1) = .otherError)
    (h21 : w.mkdir it2.filepath.dropLast = .ok)
    (h22 : w.decodeOk it2.data = true)
    (h23 : w.save it2.filepath = .permError)
    (h24 : w.mkdir (itemFallbackDir it2) = .ok)
    (h25 : w.save (itemFallbackDir it2 ++ [basename it2.filepath]) = .ok)
    (h31 : w.mkdir it3.filepath.dropLast = .ok)
    (h32 : w.decodeOk it3.data = true)
    (h33 : w.save it3.filepath = .ok)
    (h41 : w.mkdir it4.filepath.dropLast = .permError)
    (h42 : w.mkdir (itemFallbackDir it4) = .ok)
    (h43 : w.decodeOk it4.data = true)
    (h44 : w.save (itemFallbackDir it4 ++ [basename it4.filepath]) = .ok) :
    processItem w it1 = ([.mkdirAttempt it1.filepath.dropLast .permError,
        .mkdirAttempt (itemFallbackDir it1) .otherError, .logItemError], 0)
    ∧ processItem w it2 = ([.mkdirAttempt it2.filepath.dropLast .ok,
        .saveAttempt it2.filepath .permError,
        .mkdirAttempt (itemFallbackDir it2) .ok,
        .saveAttempt (itemFallbackDir it2 ++ [basename it2.filepath]) .ok,
        .logSaved (basename (itemFallbackDir it2 ++ [basename it2.filepath]))], 1)
    ∧ processItem w it3 = ([.mkdirAttempt it3.filepath.dropLast .ok,
        .saveAttempt it3.filepath .ok, .logSaved (basename it3.filepath)], 1)
    ∧ processItem w it4 = ([.mkdirAttempt it4.filepath.dropLast .permError,
        .mkdirAttempt (itemFallbackDir it4) .ok,
        .saveAttempt (itemFallbackDir it4 ++ [basename it4.filepath]) .ok,
        .logSaved (basename (itemFallbackDir it4 ++ [basename it4.filepath]))], 1)
    ∧ (save_worker_io w [it1, it2, it3, it4]).2 = 3
    ∧ (save_worker_io w [it1, it2, it3, it4]).1
      = (processItem w it1).1 ++ (processItem w it2).1 ++ (processItem w it3).1
        ++ (processItem w it4).1 := by
  have p1 : processItem w it1 = ([.mkdirAttempt it1.filepath.dropLast .permError,
      .mkdirAttempt (itemFallbackDir it1) .otherError, .logItemError], 0) := by
    simp [processItem, h11, h12]
  have p2 : processItem w it2 = ([.mkdirAttempt it2.filepath.dropLast .ok,
      .saveAttempt it2.filepath .permError,
      .mkdirAttempt (itemFallbackDir it2) .ok,
      .saveAttempt (itemFallbackDir it2 ++ [basename it2.filepath]) .ok,
      .logSaved (basename (itemFallbackDir it2 ++ [basename it2.filepath]))], 1) := by
    simp [processItem, writePhase, h21, h22, h23, h24, h25]
  have p3 : processItem w it3 = ([.mkdirAttempt it3.filepath.dropLast .ok,
      .saveAttempt it3.filepath .ok, .logSaved (basename it3.filepath)], 1) := by
    simp [processItem, writePhase, h31, h32, h33]
  have p4 : processItem w it4 = ([.mkdirAttempt it4.filepath.dropLast .permError,
      .mkdirAttempt (itemFallbackDir it4) .ok,
      .saveAttempt (itemFallbackDir it4 ++ [basename it4.filepath]) .ok,
      .logSaved (basename (itemFallbackDir it4 ++ [basename it4.filepath]))], 1) := by
    simp [processItem, writePhase, h41, h42, h43, h44]
  refine ⟨p1, p2, p3, p4, ?_, ?_⟩
  · simp [save_worker_io, p1, p2, p3, p4]
  · simp [save_worker_io, List.append_assoc]

/-- Concrete item whose primary and fallback directory creation fail. -/
def itA : SaveItem := ⟨.bytes [1], "d1", ["root", "d1", "a.png"]⟩

/-- Concrete item whose write is denied but whose fallback write lands. -/
def itB : SaveItem := ⟨.bytes [2], "d2", ["root", "d2", "b.png"]⟩

/-- Concrete item that persists without incident. -/
def itC : SaveItem := ⟨.bytes [3], "d3", ["root", "d3", "c.png"]⟩

/-- Concrete item whose directory is redirected to the fallback root. -/
def itD : SaveItem := ⟨.bytes [4], "d4", ["root", "d4", "e.png"]⟩

/-- Concrete item whose raw data does not decode to a pixmap. -/
def itNull : SaveItem := ⟨.malformed, "d5", ["root", "d5", "n.png"]⟩

/-- A concrete filesystem oracle for the witnesses: `root/d1` cannot be
created (PermissionError) and its fallback directory creation fails
with another error; writes into `root/d2` are denied; `root/d4` cannot
be created (PermissionError); malformed data does not decode; every
other call succeeds. -/
def wTest : World where
  mkdir p :=
    if p = ["root", "d1"] then .permError
    else if p = fallbackRoot ++ ["d1"] then .otherError
    else if p = ["root", "d4"] then .permError
    else .ok
  save p := if p = ["root", "d2", "b.png"] then .permError else .ok
  decodeOk d := d != PyData.malformed

/-- Witness for C7: the oracle `wTest` on the four concrete items. -/
theorem C7_fallback_retry_witness :
    (wTest.mkdir itA.filepath.dropLast = .permError
      ∧ wTest.mkdir (itemFallbackDir itA) = .otherError
      ∧ wTest.mkdir itB.filepath.dropLast = .ok
      ∧ wTest.decodeOk itB.data = true
      ∧ wTest.save itB.filepath = .permError
      ∧ wTest.mkdir (itemFallbackDir itB) = .ok
      ∧ wTest.save (itemFallbackDir itB ++ [basename itB.filepath]) = .ok
      ∧ wTest.mkdir itC.filepath.dropLast = .ok
      ∧ wTest.decodeOk itC.data = true
      ∧ wTest.save itC.filepath = .ok
      ∧ wTest.mkdir itD.filepath.dropLast = .permError
      ∧ wTest.mkdir (itemFallbackDir itD) = .ok
      ∧ wTest.decodeOk itD.data = true
      ∧ wTest.save (itemFallbackDir itD ++ [basename itD.filepath]) = .ok)
    ∧ (processItem wTest itA = ([.mkdirAttempt itA.filepath.dropLast .permError,
        .mkdirAttempt (itemFallbackDir itA) .otherError, .logItemError], 0)
    ∧ processItem wTest itB = ([.mkdirAttempt itB.filepath.dropLast .ok,
        .saveAttempt itB.filepath .permError,
        .mkdirAttempt (itemFallbackDir itB) .ok,
        .saveAttempt (itemFallbackDir itB ++ [basename itB.filepath]) .ok,
        .logSaved (basename (itemFallbackDir itB ++ [basename itB.filepath]))], 1)
    ∧ processItem wTest itC = ([.mkdirAttempt itC.filepath.dropLast .ok,
        .saveAttempt itC.filepath .ok, .logSaved (basename itC.filepath)], 1)
    ∧ processItem wTest itD = ([.mkdirAttempt itD.filepath.dropLast .permError,
        .mkdirAttempt (itemFallbackDir itD) .ok,
        .saveAttempt (itemFallbackDir itD ++ [basename itD.filepath]) .ok,
        .logSaved (basename (itemFallbackDir itD ++ [basename itD.filepath]))], 1)
    ∧ (save_worker_io wTest [itA, itB, itC, itD]).2 = 3
    ∧ (save_worker_io wTest [itA, itB, itC, itD]).1
      = (processItem wTest itA).1 ++ (processItem wTest itB).1 ++ (processItem wTest itC).1
        ++ (processItem wTest itD).1) :=
  ⟨⟨by decide, by decide, by decide, by decide, by decide, by decide, by decide, by decide,
      by decide, by decide, by decide, by decide, by decide, by decide⟩,
    C7_fallback_retry wTest itA itB itC itD (by decide) (by decide) (by decide) (by decide)
      (by decide) (by decide) (by decide) (by decide) (by decide) (by decide) (by decide)
      (by decide) (by decide) (by decide)⟩

/-! ### Claim C10 -/

/-- C10: during a flush, a drained item whose raw bytes fail to decode
(the loaded pixmap is null) is silently discarded, provided its
directory phase does not itself raise unrecovered: its handling
produces only directory-creation events — so no write attempt, no
ERROR log entry and no saved-log entry — it contributes nothing to
`saved_count`, and the remaining items of the batch are still
processed: the run of any batch around it decomposes into the other
items' unchanged runs. -/
theorem C10_null_pixmap_skipped (w : World) (it : SaveItem) (pre post : List SaveItem)
    (hdec : w.decodeOk it.data = false)
    (hdir : w.mkdir it.filepath.dropLast = .ok
      ∨ (w.mkdir it.filepath.dropLast = .permError
          ∧ w.mkdir (itemFallbackDir it) = .ok)) :
    (processItem w it).1.all isMkdirEvent = true
    ∧ (processItem w it).2 = 0
    ∧ save_worker_io w (pre ++ it :: post)
      = ((save_worker_io w pre).1 ++ (processItem w it).1 ++ (save_worker_io w post).1,
          (save_worker_io w pre).2 + (save_worker_io w post).2) := by
  have hp : (processItem w it).1.all isMkdirEvent = true ∧ (processItem w it).2 = 0 := by
    rcases hdir with h | ⟨h1, h2⟩
    · constructor <;> simp [processItem, writePhase, h, hdec, isMkdirEvent]
    · constructor <;> simp [processItem, writePhase, h1, h2, hdec, isMkdirEvent]
  refine ⟨hp.1, hp.2, ?_⟩
  rw [save_worker_io_append w pre (it :: post)]
  have hmid : save_worker_io w (it :: post)
      = ((processItem w it).1 ++ (save_worker_io w post).1, (save_worker_io w post).2) := by
    simp [save_worker_io, hp.2]
  rw [hmid]
  simp [List.append_assoc]

/-- Witness for C10: the undecodable `itNull` flushed between `itC` and
`itB` under the oracle `wTest`. -/
theorem C10_null_pixmap_skipped_witness :
    (wTest.decodeOk itNull.data = false
      ∧ (wTest.mkdir itNull.filepath.dropLast = .ok
        ∨ (wTest.mkdir itNull.filepath.dropLast = .permError
            ∧ wTest.mkdir (itemFallbackDir itNull) = .ok)))
    ∧ ((processItem wTest itNull).1.all isMkdirEvent = true
    ∧ (processItem wTest itNull).2 = 0
    ∧ save_worker_io wTest ([itC] ++ itNull :: [itB])
      = ((save_worker_io wTest [itC]).1 ++ (processItem wTest itNull).1
          ++ (save_worker_io wTest [itB]).1,
          (save_worker_io wTest [itC]).2 + (save_worker_io wTest [itB]).2)) :=
  ⟨⟨by decide, by decide⟩,
    C10_null_pixmap_skipped wTest itNull [itC] [itB] (by decide) (by decide)⟩

end SmartBoard
